import Mathlib

/-!
Verification of the `sourcegraph-ce/terraform-provider-cloudflare` provider
resources: the DNS-record legacy state migrator and the Origin CA
certificate resource.

The embedding mirrors the Go source in `src/cloudflare/`.  External
libraries (the Cloudflare HTTP client, `encoding/pem`, `crypto/x509`) are
abstracted as explicit function parameters; the repository's own logic is
translated directly.
-/

namespace Cloudflare

/-- A legacy Terraform instance state snapshot: a stable `id` plus a flat
string-keyed attribute mapping, modelled as an association list
(`terraform.InstanceState`). -/
structure InstanceState where
  id : String
  attributes : List (String × String)
deriving Repr, DecidableEq

/-- Lookup of an attribute by key (Go map access returning presence). -/
def InstanceState.attr (is : InstanceState) (k : String) : Option String :=
  (is.attributes.find? (fun p => p.1 == k)).map Prod.snd

/-- Store an attribute value, replacing any previous binding of the key. -/
def InstanceState.setAttr (is : InstanceState) (k v : String) : InstanceState :=
  { is with attributes := (k, v) :: is.attributes.filter (fun p => p.1 != k) }

/-- A remote DNS record as returned by the zone record-list endpoint
(`cloudflare.DNSRecord`).  Absent JSON fields decode to Go zero values:
`priority` 0, `proxied` false, `type` the empty string. -/
structure DNSRecord where
  id : String
  type : String
  name : String
  content : String
  ttl : Nat
  proxied : Bool
  priority : Nat
deriving Repr, DecidableEq

/-- A remote zone as returned by the zone-list endpoint (`cloudflare.Zone`). -/
structure Zone where
  id : String
  name : String
deriving Repr, DecidableEq

/-- The authenticated API handle (`*cloudflare.API`), abstracted to the two
read-only queries the migrator issues: the zone list and, per zone ID, the
zone's DNS record list. -/
structure CloudflareAPI where
  zones : List Zone
  dnsRecords : String → List DNSRecord

/-- `ZoneIDByName`: resolve a domain to its zone ID via the zone list. -/
def CloudflareAPI.zoneIDByName (api : CloudflareAPI) (domain : String) : Option String :=
  (api.zones.find? (fun z => z.name == domain)).map Zone.id

/-- Strip the leftmost DNS label (everything up to and including the first
dot) from a hostname; a name without a dot is left unchanged. -/
def stripLeftmostLabel (h : String) : String :=
  match h.splitOn "." with
  | _ :: rest@(_ :: _) => String.intercalate "." rest
  | _ => h

/-- Modelled from the spec: step 2 of the migration algorithm in the file
`resource_cloudflare_record_migrate.go`, which is absent from `src/` (only
its test is present).  "Derive the target domain from an explicit
`domain`/`zone_id` attribute or by stripping the leftmost label from
`hostname`/`name`." -/
def deriveDomain (is : InstanceState) : Option String :=
  match is.attr "domain" with
  | some d => some d
  | none =>
    match is.attr "zone_id" with
    | some z => some z
    | none =>
      match is.attr "hostname" with
      | some h => some (stripLeftmostLabel h)
      | none => (is.attr "name").map stripLeftmostLabel

/-- The fully-qualified name the state snapshot claims: the `hostname`
attribute when present, else the `name` attribute (spec step 5 filters "by
exact match on `name` (or `hostname`)"; the legacy `name` may be the bare
subdomain label, so `hostname` is preferred). -/
def searchName (is : InstanceState) : String :=
  match is.attr "hostname" with
  | some h => h
  | none => (is.attr "name").getD ""

/-- Parse a Terraform state boolean attribute ("true"/"false") to its
native boolean value. -/
def parseBoolAttr : String → Option Bool
  | "true" => some true
  | "false" => some false
  | _ => none

/-- Parse a Terraform state numeric attribute (`ttl`, `priority`) to its
native non-negative integer value (Go `strconv.Atoi` on the decimal strings
Terraform stores); fails on a non-digit or empty string. -/
def parseNatAttr (s : String) : Option Nat :=
  if s.data.isEmpty then none
  else
    s.data.foldl
      (fun acc c =>
        acc.bind fun n =>
          if c.isDigit then some (n * 10 + (c.toNat - 48)) else none)
      (some 0)

/-- Narrow a candidate list by native-value equality with a parsed state
attribute; a discriminator whose attribute is absent (or unparsable) does
not narrow. -/
def filterByAttr {α : Type} [BEq α] (v : Option α) (f : DNSRecord → α)
    (rs : List DNSRecord) : List DNSRecord :=
  match v with
  | none => rs
  | some x => rs.filter (fun r => f r == x)

/-- Modelled from the spec: step 5 of the migration algorithm in the absent
`resource_cloudflare_record_migrate.go` — "Filter candidates by exact match
on `name` (or `hostname`) and record `type`." -/
def candidatesByNameType (is : InstanceState) (records : List DNSRecord) : List DNSRecord :=
  records.filter (fun r => r.name == searchName is && r.type == (is.attr "type").getD "")

/-- Modelled from the spec: step 6 of the migration algorithm in the absent
`resource_cloudflare_record_migrate.go` — "Among remaining candidates,
disambiguate using, in order: `ttl` equality, `proxied` equality, and for
`MX`-type records, `priority` equality — comparing each as its native type
(integer/boolean), not string identity." -/
def applyDiscriminators (is : InstanceState) (rs : List DNSRecord) : List DNSRecord :=
  let afterTtl := filterByAttr ((is.attr "ttl").bind parseNatAttr) DNSRecord.ttl rs
  let afterProxied :=
    filterByAttr ((is.attr "proxied").bind parseBoolAttr) DNSRecord.proxied afterTtl
  if (is.attr "type").getD "" == "MX" then
    filterByAttr ((is.attr "priority").bind parseNatAttr) DNSRecord.priority afterProxied
  else afterProxied

/-- Modelled from the spec: `migrateCloudflareRecordStateV0toV1` in the
absent `resource_cloudflare_record_migrate.go`.  A snapshot already bearing
a long-form identifier (32+ characters) is passed through unchanged without
querying the API; otherwise the domain is derived, resolved to a zone, the
zone's records are listed, candidates are filtered and disambiguated, and a
unique survivor's `id` is adopted — zero or several survivors fail with an
ambiguous-or-missing-record error. -/
def migrateCloudflareRecordStateV0toV1 (is : InstanceState) (api : CloudflareAPI) :
    Except String InstanceState :=
  if 32 ≤ is.id.length then .ok is
  else
    match deriveDomain is with
    | none => .error "zone not found"
    | some domain =>
      match api.zoneIDByName domain with
      | none => .error "zone not found"
      | some zoneID =>
        match applyDiscriminators is (candidatesByNameType is (api.dnsRecords zoneID)) with
        | [r] => .ok { is.setAttr "id" r.id with id := r.id }
        | _ => .error "ambiguous or missing record"

/-- Modelled from the spec: `resourceCloudflareRecordMigrateState` in the
absent `resource_cloudflare_record_migrate.go` — "If version indicates
already-current schema, return state unchanged"; version 0 states are
migrated to v1. -/
def resourceCloudflareRecordMigrateState (v : Nat) (is : InstanceState)
    (api : CloudflareAPI) : Except String InstanceState :=
  match v with
  | 0 => migrateCloudflareRecordStateV0toV1 is api
  | _ => .ok is

/-- The mock zone fixture of `TestCloudflareRecordMigrateState`
(`zoneResponse`). -/
def mockZones : List Zone := [⟨"1234567890", "hashicorptest.com"⟩]

/-- The mock DNS record fixture of `TestCloudflareRecordMigrateState`
(`dnsResponse`); JSON fields absent from the fixture decode to Go zero
values. -/
def mockRecords : List DNSRecord :=
  [ ⟨"7778f8766e583af8de0abfcd76c5dAAA", "A", "notthesub.hashicorptest.com",
      "10.0.2.5", 120, false, 0⟩,
    ⟨"5558f8766e583af8de0abfcd76c5dBBB", "A", "notthesub.hashicorptest.com",
      "10.0.2.5", 121, false, 0⟩,
    ⟨"2220a9593ab869199b65c89bddf72ddd", "A", "maybethesub.hashicorptest.com",
      "10.0.3.5", 120, false, 0⟩,
    ⟨"222ffe3f93a31231ad6b0c6d09185jjj", "A", "tftestingsubv616.hashicorptest.com",
      "52.39.212.111", 1, false, 0⟩,
    ⟨"888ffe3f93a31231ad6b0c6d09185eee", "A", "tftestingsubv616.hashicorptest.com",
      "52.39.212.111", 1, true, 0⟩,
    ⟨"98y6t9ba87e6ee3e6aeba8f3dc52c81b", "CNAME", "somecname.hashicorptest.com",
      "some.us-west-2.elb.amazonaws.com", 120, false, 0⟩,
    ⟨"12342092cbc4c391be33ce548713bba3", "MX", "hashicorptest.com",
      "some.registrar-servers.com", 1, false, 20⟩,
    ⟨"12345678901234567890123456789012", "", "hashicorptest.com",
      "1.2.3.4", 122, true, 0⟩ ]

/-- The mock API environment of `TestCloudflareRecordMigrateState`. -/
def mockAPI : CloudflareAPI :=
  ⟨mockZones, fun z => if z == "1234567890" then mockRecords else []⟩

/-- The `ttl_122_state_v0_with_v1_fields` test case of
`TestCloudflareRecordMigrateState`: a v0 snapshot already carrying a
32-character identifier. -/
def longIdState : InstanceState :=
  { id := "12345678901234567890123456789012",
    attributes :=
      [("hostname", "hashicorptest.com"), ("id", "12345678901234567890123456789012"),
       ("name", "hashicorptest.com"), ("priority", "0"), ("proxied", "true"),
       ("ttl", "122"), ("type", "A"), ("value", "1.2.3.4"), ("zone_id", "1234567890")] }

/-- The `ttl_120` test case of `TestCloudflareRecordMigrateState`. -/
def ttl120State : InstanceState :=
  { id := "123456",
    attributes :=
      [("id", "123456"), ("name", "notthesub"),
       ("hostname", "notthesub.hashicorptest.com"), ("type", "A"),
       ("content", "10.0.2.5"), ("ttl", "120"), ("zone_id", "1234567890"),
       ("domain", "hashicorptest.com")] }

/-- The `proxied` test case of `TestCloudflareRecordMigrateState`. -/
def proxiedState : InstanceState :=
  { id := "123456",
    attributes :=
      [("id", "123456"), ("name", "tftestingsubv616"),
       ("hostname", "tftestingsubv616.hashicorptest.com"), ("type", "A"),
       ("content", "52.39.212.111"), ("proxied", "true"), ("ttl", "1"),
       ("zone_id", "1234567890"), ("domain", "hashicorptest.com")] }

/-- The `mx_priority_mismatch` test case of
`TestCloudflareRecordMigrateState`. -/
def mxMismatchState : InstanceState :=
  { id := "123456",
    attributes :=
      [("id", "123456"), ("type", "MX"), ("name", "hashicorptest.com"),
       ("content", "some.registrar-servers.com"), ("ttl", "1"),
       ("priority", "10"), ("zone_id", "1234567890"),
       ("domain", "hashicorptest.com")] }

/-! ### Origin CA certificate resource

Embedding of `resource_cloudflare_origin_ca_certificate.go`.  The Cloudflare
client calls (`OriginCertificate`, `RevokeOriginCertificate`), the PEM
decoder and the X.509 CSR parser are external library calls and appear as
explicit function parameters; `time.Time` values are abstracted to natural
numbers whose zero is Go's zero `time.Time{}`. -/

/-- The remote certificate (`cloudflare.OriginCACertificate`), restricted to
the fields the Read handler consumes. -/
structure OriginCACertificate where
  id : String
  certificate : String
  hostnames : List String
  expiresOn : Nat
  requestType : String
  revokedAt : Nat
deriving Repr, DecidableEq

/-- The resource's Terraform state (`*schema.ResourceData`): the resource id
plus the six schema attributes declared in
`resourceCloudflareOriginCACertificate`. -/
structure CertResourceData where
  id : String
  certificate : String
  csr : String
  expires_on : String
  hostnames : List String
  request_type : String
  requested_validity : Nat
deriving Repr, DecidableEq

/-- Substring test on character lists: the needle occurs as a contiguous
infix of the haystack (Go `strings.Contains`). -/
def charListContains (needle : List Char) : List Char → Bool
  | [] => needle.isEmpty
  | c :: cs => needle.isPrefixOf (c :: cs) || charListContains needle cs

/-- Go `strings.Contains s sub`. -/
def containsSubstring (s sub : String) : Bool :=
  charListContains sub.data s.data

/-- `resourceCloudflareOriginCACertificateRead`: fetch the certificate by
the stored id; a lookup error containing the not-found marker clears the
state id and reports no error, any other lookup error is wrapped; a
certificate with a non-zero revocation timestamp clears the state id;
otherwise certificate text, expiry, hostname set and request type are
repopulated.  The result pairs the updated state with the returned error
(Go `error`, `none` for `nil`); `schema.Set` insertion is modelled by
deduplication of the hostname list. -/
def resourceCloudflareOriginCACertificateRead
    (originCertificate : String → Except String OriginCACertificate)
    (formatRFC3339 : Nat → String)
    (d : CertResourceData) : CertResourceData × Option String :=
  match originCertificate d.id with
  | .error e =>
    if containsSubstring e "Failed to read certificate from Database" then
      ({ d with id := "" }, none)
    else
      (d, some ("Error finding OriginCACertificate \"" ++ d.id ++ "\": " ++ e))
  | .ok cert =>
    if cert.revokedAt ≠ 0 then
      ({ d with id := "" }, none)
    else
      ({ d with
          certificate := cert.certificate,
          expires_on := formatRFC3339 cert.expiresOn,
          hostnames := cert.hostnames.dedup,
          request_type := cert.requestType }, none)

/-- `resourceCloudflareOriginCACertificateDelete`: revoke the certificate
with the stored id (`RevokeOriginCertificate`, whose success value is the
revoked certificate id); on success clear the state id, on failure wrap the
error. -/
def resourceCloudflareOriginCACertificateDelete
    (revokeOriginCertificate : String → Except String String)
    (d : CertResourceData) : CertResourceData × Option String :=
  match revokeOriginCertificate d.id with
  | .error e => (d, some ("Error revoking Cloudflare OriginCACertificate: " ++ e))
  | .ok _ => ({ d with id := "" }, none)

/-- A decoded PEM block (`pem.Block`); only the fields `validateCSR`
consumes (the payload bytes) plus the block type label.  Headers are unused
by the code and omitted. -/
structure PEMBlock where
  blockType : String
  bytes : List Nat
deriving Repr, DecidableEq

/-- `validateCSR`: decode the first PEM block of the value (`pem.Decode`
returns the block and the rest of the input, which the code discards); a
nil block yields an invalid-PEM validation error, a block whose bytes fail
`x509.ParseCertificateRequest` yields the parser's error, and otherwise no
warnings and no errors are produced.  The result is the `(ws, errors)` pair
of the Go function. -/
def validateCSR
    (pemDecode : String → Option (PEMBlock × String))
    (parseCertificateRequest : List Nat → Except String Unit)
    (v : String) (k : String) : List String × List String :=
  match pemDecode v with
  | none => ([], ["\"" ++ k ++ "\": invalid PEM data"])
  | some (block, _) =>
    match parseCertificateRequest block.bytes with
    | .error e => ([], ["\"" ++ k ++ "\": " ++ e])
    | .ok _ => ([], [])

/-- Sample PEM decoder for concrete runs: two inputs share the same first
block (one with trailing data), one decodes to a non-CSR block, everything
else is not PEM. -/
def pemDecodeSample : String → Option (PEMBlock × String) := fun s =>
  if s = "good" then some (⟨"CERTIFICATE REQUEST", [1, 2, 3]⟩, "")
  else if s = "goodWithTrailer" then some (⟨"CERTIFICATE REQUEST", [1, 2, 3]⟩, "more")
  else if s = "badcsr" then some (⟨"CERTIFICATE", [9]⟩, "")
  else none

/-- Sample CSR parser for concrete runs: accepts exactly the payload
`[1, 2, 3]`. -/
def parseCSRSample : List Nat → Except String Unit := fun bs =>
  if bs = [1, 2, 3] then .ok () else .error "asn1: structure error"

/-- Sample resource state for concrete certificate runs. -/
def sampleCertData : CertResourceData :=
  { id := "certid1", certificate := "", csr := "good", expires_on := "",
    hostnames := [], request_type := "origin-rsa", requested_validity := 7 }

/-- Certificate lookup failing with the not-found marker message. -/
def lookupNotFound : String → Except String OriginCACertificate := fun _ =>
  .error "HTTP status 404: Failed to read certificate from Database (1044)"

/-- Certificate lookup failing with an unrelated error. -/
def lookupBroken : String → Except String OriginCACertificate := fun _ =>
  .error "HTTP status 500: internal error"

/-- A live remote certificate. -/
def liveCert : OriginCACertificate :=
  { id := "certid1", certificate := "PEMTEXT", hostnames := ["a.example.com", "a.example.com", "b.example.com"],
    expiresOn := 500, requestType := "origin-rsa", revokedAt := 0 }

/-- A revoked remote certificate. -/
def revokedCert : OriginCACertificate :=
  { id := "certid1", certificate := "PEMTEXT", hostnames := ["a.example.com"],
    expiresOn := 500, requestType := "origin-rsa", revokedAt := 1234 }

/-- Certificate lookup returning the live certificate. -/
def lookupLive : String → Except String OriginCACertificate := fun _ => .ok liveCert

/-- Certificate lookup returning the revoked certificate. -/
def lookupRevoked : String → Except String OriginCACertificate := fun _ => .ok revokedCert

/-- Sample RFC 3339 formatter for concrete runs. -/
def formatSample : Nat → String := fun _ => "2032-01-30T17:11:00Z"

/-- Revocation call that succeeds, echoing the certificate id. -/
def revokeOk : String → Except String String := fun certID => .ok certID

/-- Revocation call that fails. -/
def revokeBroken : String → Except String String := fun _ =>
  .error "HTTP status 500: internal error"

/-- An unproxied MX record, priority 20. -/
def mxUnproxiedRecord : DNSRecord :=
  ⟨"aaaa2092cbc4c391be33ce548713bba3", "MX", "hashicorptest.com",
    "mail1.registrar-servers.com", 1, false, 20⟩

/-- A proxied MX record otherwise agreeing with `mxUnproxiedRecord` on
name, type, ttl and priority. -/
def mxProxiedRecord : DNSRecord :=
  ⟨"bbbb2092cbc4c391be33ce548713bba3", "MX", "hashicorptest.com",
    "mail2.registrar-servers.com", 1, true, 20⟩

/-- An API environment whose zone holds exactly the two MX records that
agree on name, type and ttl but differ in `proxied`. -/
def mxPairAPI : CloudflareAPI :=
  ⟨[⟨"1234567890", "hashicorptest.com"⟩],
   fun z => if z == "1234567890" then [mxUnproxiedRecord, mxProxiedRecord] else []⟩

/-- A legacy MX snapshot matching the two records of `mxPairAPI` on name,
type and ttl, with `proxied` "true" and a `priority` attribute (10)
matching neither record's priority (20). -/
def mxPairState : InstanceState :=
  { id := "123456",
    attributes :=
      [("id", "123456"), ("type", "MX"), ("name", "hashicorptest.com"),
       ("content", "mail2.registrar-servers.com"), ("ttl", "1"),
       ("proxied", "true"), ("priority", "10"), ("zone_id", "1234567890"),
       ("domain", "hashicorptest.com")] }

end Cloudflare

namespace Cloudflare

/-- **C1.** For every legacy DNS record state snapshot, migration is a no-op
(returns the snapshot unchanged, for every API environment — hence without
querying the API) whenever the schema version indicates the already-current
schema or the snapshot's id already has 32 or more characters; consequently
running migration twice yields the same state as running it once. -/
theorem migrate_noop_and_idempotent (v : Nat) (is : InstanceState) (api : CloudflareAPI)
    (h : v ≠ 0 ∨ 32 ≤ is.id.length) :
    resourceCloudflareRecordMigrateState v is api = .ok is ∧
    (resourceCloudflareRecordMigrateState v is api).bind
        (fun s => resourceCloudflareRecordMigrateState v s api) =
      resourceCloudflareRecordMigrateState v is api := by
  have hok : resourceCloudflareRecordMigrateState v is api = .ok is := by
    rcases h with hv | hlen
    · cases v with
      | zero => exact absurd rfl hv
      | succ n => rfl
    · cases v with
      | zero =>
        simp [resourceCloudflareRecordMigrateState, migrateCloudflareRecordStateV0toV1, hlen]
      | succ n => rfl
  refine ⟨hok, ?_⟩
  rw [hok]
  simpa [Except.bind] using hok

/-- C1 at a concrete input: the long-id fixture state migrates to itself. -/
theorem migrate_noop_and_idempotent_witness :
    resourceCloudflareRecordMigrateState 0 longIdState mockAPI = .ok longIdState ∧
    (resourceCloudflareRecordMigrateState 0 longIdState mockAPI).bind
        (fun s => resourceCloudflareRecordMigrateState 0 s mockAPI) =
      resourceCloudflareRecordMigrateState 0 longIdState mockAPI :=
  migrate_noop_and_idempotent 0 longIdState mockAPI (Or.inr (by decide))

/-- **C2.** For every legacy snapshot whose name (or hostname) and type
match exactly one remote record after all discriminators, migration adopts
that record's real `id`; when zero or several candidates remain after all
discriminators, migration fails with the ambiguous-or-missing-record
error. -/
theorem migrate_unique_match (is : InstanceState) (api : CloudflareAPI)
    (domain zoneID : String)
    (hshort : is.id.length < 32)
    (hdom : deriveDomain is = some domain)
    (hzone : api.zoneIDByName domain = some zoneID) :
    (∀ r : DNSRecord,
        applyDiscriminators is (candidatesByNameType is (api.dnsRecords zoneID)) = [r] →
        resourceCloudflareRecordMigrateState 0 is api =
          .ok { is.setAttr "id" r.id with id := r.id }) ∧
    (∀ cs : List DNSRecord,
        applyDiscriminators is (candidatesByNameType is (api.dnsRecords zoneID)) = cs →
        cs.length ≠ 1 →
        resourceCloudflareRecordMigrateState 0 is api =
          .error "ambiguous or missing record") := by
  have hlt : ¬ 32 ≤ is.id.length := Nat.not_le.mpr hshort
  constructor
  · intro r hr
    simp [resourceCloudflareRecordMigrateState, migrateCloudflareRecordStateV0toV1,
      hlt, hdom, hzone, hr]
  · intro cs hcs hlen
    match cs, hlen with
    | [], _ =>
      simp [resourceCloudflareRecordMigrateState, migrateCloudflareRecordStateV0toV1,
        hlt, hdom, hzone, hcs]
    | a :: b :: t, _ =>
      simp [resourceCloudflareRecordMigrateState, migrateCloudflareRecordStateV0toV1,
        hlt, hdom, hzone, hcs]
    | [a], h => exact absurd rfl h

/-- C2 at a concrete input: the `ttl_120` fixture resolves to the unique
record `7778f8766e583af8de0abfcd76c5dAAA`. -/
theorem migrate_unique_match_witness :
    resourceCloudflareRecordMigrateState 0 ttl120State mockAPI =
      .ok { ttl120State.setAttr "id" "7778f8766e583af8de0abfcd76c5dAAA" with
              id := "7778f8766e583af8de0abfcd76c5dAAA" } :=
  (migrate_unique_match ttl120State mockAPI "hashicorptest.com" "1234567890"
      (by decide) (by decide) (by decide)).1
    ⟨"7778f8766e583af8de0abfcd76c5dAAA", "A", "notthesub.hashicorptest.com",
      "10.0.2.5", 120, false, 0⟩ (by rfl)

/-- **C3 (amended).** For every pair of remote records agreeing on name,
type and ttl (they survive the name/type filter and the ttl discriminator
together) but differing in `proxied`, migration of a matching legacy
snapshot **whose type is not `MX`** — comparing the discriminators in order
ttl, proxied, priority and as native values — selects the record whose
`proxied` equals the snapshot's parsed boolean `proxied` attribute.  The
original claim, quantifying over MX snapshots too, is false: the subsequent
priority discriminator can eliminate the proxied-matching candidate
(`migrate_selects_proxied_counterexample`). -/
theorem migrate_selects_proxied (is : InstanceState) (api : CloudflareAPI)
    (domain zoneID : String) (r1 r2 : DNSRecord) (b : Bool)
    (hshort : is.id.length < 32)
    (hdom : deriveDomain is = some domain)
    (hzone : api.zoneIDByName domain = some zoneID)
    (hcands : filterByAttr ((is.attr "ttl").bind parseNatAttr) DNSRecord.ttl
        (candidatesByNameType is (api.dnsRecords zoneID)) = [r1, r2])
    (hdiff : r1.proxied ≠ r2.proxied)
    (hb : (is.attr "proxied").bind parseBoolAttr = some b)
    (hnotmx : (is.attr "type").getD "" ≠ "MX") :
    ∃ r : DNSRecord, (r = r1 ∨ r = r2) ∧ r.proxied = b ∧
      resourceCloudflareRecordMigrateState 0 is api =
        .ok { is.setAttr "id" r.id with id := r.id } := by
  have hlt : ¬ 32 ≤ is.id.length := Nat.not_le.mpr hshort
  have hnotmx' : ((is.attr "type").getD "" == "MX") = false := by
    simpa using hnotmx
  by_cases h1 : r1.proxied = b
  · have h2 : r2.proxied ≠ b := fun h => hdiff (h1.trans h.symm)
    refine ⟨r1, Or.inl rfl, h1, ?_⟩
    have hsel : applyDiscriminators is (candidatesByNameType is (api.dnsRecords zoneID)) =
        [r1] := by
      simp only [applyDiscriminators, hcands, hb, hnotmx', Bool.false_eq_true, if_false]
      simp [filterByAttr, h1, h2]
    simp [resourceCloudflareRecordMigrateState, migrateCloudflareRecordStateV0toV1,
      hlt, hdom, hzone, hsel]
  · have h2 : r2.proxied = b := by
      rcases Bool.eq_or_eq_not r2.proxied b with h2 | h2
      · exact h2
      · rcases Bool.eq_or_eq_not r1.proxied b with h1' | h1'
        · exact absurd h1' h1
        · exact absurd (h1'.trans h2.symm) hdiff
    refine ⟨r2, Or.inr rfl, h2, ?_⟩
    have hsel : applyDiscriminators is (candidatesByNameType is (api.dnsRecords zoneID)) =
        [r2] := by
      simp only [applyDiscriminators, hcands, hb, hnotmx', Bool.false_eq_true, if_false]
      simp [filterByAttr, h1, h2]
    simp [resourceCloudflareRecordMigrateState, migrateCloudflareRecordStateV0toV1,
      hlt, hdom, hzone, hsel]

/-- C3 at a concrete input: of the two `tftestingsubv616` records (equal
name/type/ttl, `proxied` false vs true), the `proxied` fixture selects the
record whose `proxied` is `true`. -/
theorem migrate_selects_proxied_witness :
    ∃ r : DNSRecord,
      (r = ⟨"222ffe3f93a31231ad6b0c6d09185jjj", "A", "tftestingsubv616.hashicorptest.com",
              "52.39.212.111", 1, false, 0⟩ ∨
       r = ⟨"888ffe3f93a31231ad6b0c6d09185eee", "A", "tftestingsubv616.hashicorptest.com",
              "52.39.212.111", 1, true, 0⟩) ∧
      r.proxied = true ∧
      resourceCloudflareRecordMigrateState 0 proxiedState mockAPI =
        .ok { proxiedState.setAttr "id" r.id with id := r.id } :=
  migrate_selects_proxied proxiedState mockAPI "hashicorptest.com" "1234567890"
    ⟨"222ffe3f93a31231ad6b0c6d09185jjj", "A", "tftestingsubv616.hashicorptest.com",
      "52.39.212.111", 1, false, 0⟩
    ⟨"888ffe3f93a31231ad6b0c6d09185eee", "A", "tftestingsubv616.hashicorptest.com",
      "52.39.212.111", 1, true, 0⟩
    true (by decide) (by decide) (by decide) (by rfl) (by decide) (by decide)
    (by decide)

/-- Counterexample to C3 as frozen: for the MX snapshot `mxPairState` all
of the claim's premises hold — the two records of `mxPairAPI` survive the
name/type filter and the ttl discriminator together, differ in `proxied`,
and the snapshot's `proxied` attribute parses to `true` — yet migration
does not select the proxied-matching record `mxProxiedRecord`: the MX
priority discriminator (state priority 10, both records 20) empties the
candidates and migration errors. -/
theorem migrate_selects_proxied_counterexample :
    filterByAttr ((mxPairState.attr "ttl").bind parseNatAttr) DNSRecord.ttl
        (candidatesByNameType mxPairState (mxPairAPI.dnsRecords "1234567890")) =
      [mxUnproxiedRecord, mxProxiedRecord] ∧
    mxUnproxiedRecord.proxied ≠ mxProxiedRecord.proxied ∧
    (mxPairState.attr "proxied").bind parseBoolAttr = some true ∧
    mxProxiedRecord.proxied = true ∧
    resourceCloudflareRecordMigrateState 0 mxPairState mxPairAPI =
      .error "ambiguous or missing record" ∧
    resourceCloudflareRecordMigrateState 0 mxPairState mxPairAPI ≠
      .ok { mxPairState.setAttr "id" mxProxiedRecord.id with id := mxProxiedRecord.id } := by
  refine ⟨by rfl, by decide, by rfl, by rfl, by rfl, ?_⟩
  intro h
  exact absurd ((by rfl : resourceCloudflareRecordMigrateState 0 mxPairState mxPairAPI =
    .error "ambiguous or missing record").symm.trans h) (by simp)

/-- A narrowing by a present discriminator value matched by no candidate
empties the candidate list. -/
theorem filterByAttr_eq_nil {α : Type} [BEq α] [LawfulBEq α] (x : α)
    (f : DNSRecord → α) (rs : List DNSRecord)
    (h : ∀ r ∈ rs, f r ≠ x) : filterByAttr (some x) f rs = [] := by
  simp only [filterByAttr, List.filter_eq_nil_iff]
  intro r hr
  simpa using h r hr

/-- **C4.** For every `MX`-type legacy snapshot whose parsed `priority`
attribute matches no candidate surviving the name/type filter and the
ttl/proxied discriminators, migration fails with the
ambiguous-or-missing-record error — even when name, type and ttl match
candidates. -/
theorem migrate_mx_priority_mismatch (is : InstanceState) (api : CloudflareAPI)
    (domain zoneID : String) (p : Nat)
    (hshort : is.id.length < 32)
    (hdom : deriveDomain is = some domain)
    (hzone : api.zoneIDByName domain = some zoneID)
    (hmx : (is.attr "type").getD "" = "MX")
    (hp : (is.attr "priority").bind parseNatAttr = some p)
    (hnomatch : ∀ r ∈ filterByAttr ((is.attr "proxied").bind parseBoolAttr)
        DNSRecord.proxied
        (filterByAttr ((is.attr "ttl").bind parseNatAttr) DNSRecord.ttl
          (candidatesByNameType is (api.dnsRecords zoneID))),
        r.priority ≠ p) :
    resourceCloudflareRecordMigrateState 0 is api =
      .error "ambiguous or missing record" := by
  have hlt : ¬ 32 ≤ is.id.length := Nat.not_le.mpr hshort
  have hmx' : ((is.attr "type").getD "" == "MX") = true := by simp [hmx]
  have hempty : applyDiscriminators is (candidatesByNameType is (api.dnsRecords zoneID)) =
      [] := by
    simp only [applyDiscriminators, hmx', if_true, hp]
    exact filterByAttr_eq_nil p DNSRecord.priority _ hnomatch
  simp [resourceCloudflareRecordMigrateState, migrateCloudflareRecordStateV0toV1,
    hlt, hdom, hzone, hempty]

/-- C4 at a concrete input: the `mx_priority_mismatch` fixture (state
priority 10, sole MX candidate priority 20) fails migration. -/
theorem migrate_mx_priority_mismatch_witness :
    resourceCloudflareRecordMigrateState 0 mxMismatchState mockAPI =
      .error "ambiguous or missing record" :=
  migrate_mx_priority_mismatch mxMismatchState mockAPI "hashicorptest.com"
    "1234567890" 10 (by decide) (by decide) (by decide) (by decide) (by decide)
    (by decide)

/-- **C5.** `validateCSR` returns a non-empty error list whenever the input
is not valid PEM data (the decoder yields no block) and whenever the first
block's payload does not parse as an X.509 certificate signing request, and
an empty error list for every input whose first block's payload parses. -/
theorem validateCSR_accepts_and_rejects
    (pemDecode : String → Option (PEMBlock × String))
    (parseCertificateRequest : List Nat → Except String Unit)
    (v k : String) :
    (pemDecode v = none →
      (validateCSR pemDecode parseCertificateRequest v k).2 ≠ []) ∧
    (∀ b rest e, pemDecode v = some (b, rest) →
      parseCertificateRequest b.bytes = .error e →
      (validateCSR pemDecode parseCertificateRequest v k).2 ≠ []) ∧
    (∀ b rest, pemDecode v = some (b, rest) →
      parseCertificateRequest b.bytes = .ok () →
      (validateCSR pemDecode parseCertificateRequest v k).2 = []) := by
  refine ⟨fun hnone => ?_, fun b rest e hsome herr => ?_, fun b rest hsome hok => ?_⟩
  · simp [validateCSR, hnone]
  · simp [validateCSR, hsome, herr]
  · simp [validateCSR, hsome, hok]

/-- C5 at concrete inputs: a non-PEM string and a non-CSR block are
rejected, the well-formed CSR is accepted. -/
theorem validateCSR_accepts_and_rejects_witness :
    (validateCSR pemDecodeSample parseCSRSample "nonsense" "csr").2 ≠ [] ∧
    (validateCSR pemDecodeSample parseCSRSample "badcsr" "csr").2 ≠ [] ∧
    (validateCSR pemDecodeSample parseCSRSample "good" "csr").2 = [] :=
  ⟨(validateCSR_accepts_and_rejects pemDecodeSample parseCSRSample "nonsense" "csr").1
      (by rfl),
   (validateCSR_accepts_and_rejects pemDecodeSample parseCSRSample "badcsr" "csr").2.1
      ⟨"CERTIFICATE", [9]⟩ "" "asn1: structure error" (by rfl) (by rfl),
   (validateCSR_accepts_and_rejects pemDecodeSample parseCSRSample "good" "csr").2.2
      ⟨"CERTIFICATE REQUEST", [1, 2, 3]⟩ "" (by rfl) (by rfl)⟩

/-- **C6.** For every certificate read whose remote lookup fails with an
error containing "Failed to read certificate from Database", the Read
handler clears the state id and returns no error; for every other lookup
error it returns the wrapped error and leaves the state unchanged. -/
theorem certRead_not_found_vs_error
    (originCertificate : String → Except String OriginCACertificate)
    (formatRFC3339 : Nat → String) (d : CertResourceData) :
    (∀ e, originCertificate d.id = .error e →
      containsSubstring e "Failed to read certificate from Database" = true →
      resourceCloudflareOriginCACertificateRead originCertificate formatRFC3339 d =
        ({ d with id := "" }, none)) ∧
    (∀ e, originCertificate d.id = .error e →
      containsSubstring e "Failed to read certificate from Database" = false →
      resourceCloudflareOriginCACertificateRead originCertificate formatRFC3339 d =
        (d, some ("Error finding OriginCACertificate \"" ++ d.id ++ "\": " ++ e))) := by
  refine ⟨fun e herr hsub => ?_, fun e herr hsub => ?_⟩
  · simp [resourceCloudflareOriginCACertificateRead, herr, hsub]
  · simp [resourceCloudflareOriginCACertificateRead, herr, hsub]

/-- C6 at concrete inputs: the 404 not-found message clears state without
error, the unrelated 500 error is wrapped. -/
theorem certRead_not_found_vs_error_witness :
    resourceCloudflareOriginCACertificateRead lookupNotFound formatSample sampleCertData =
      ({ sampleCertData with id := "" }, none) ∧
    resourceCloudflareOriginCACertificateRead lookupBroken formatSample sampleCertData =
      (sampleCertData,
       some ("Error finding OriginCACertificate \"" ++ sampleCertData.id ++ "\": " ++
             "HTTP status 500: internal error")) :=
  ⟨(certRead_not_found_vs_error lookupNotFound formatSample sampleCertData).1
      "HTTP status 404: Failed to read certificate from Database (1044)" (by rfl)
      (by decide),
   (certRead_not_found_vs_error lookupBroken formatSample sampleCertData).2
      "HTTP status 500: internal error" (by rfl) (by decide)⟩

/-- **C7.** For every certificate read that succeeds remotely: a non-zero
revocation timestamp clears the state id and returns no error; a zero
revocation timestamp repopulates certificate text, expiry, hostname set and
request type, returning no error. -/
theorem certRead_revoked_vs_repopulate
    (originCertificate : String → Except String OriginCACertificate)
    (formatRFC3339 : Nat → String) (d : CertResourceData)
    (cert : OriginCACertificate)
    (hok : originCertificate d.id = .ok cert) :
    (cert.revokedAt ≠ 0 →
      resourceCloudflareOriginCACertificateRead originCertificate formatRFC3339 d =
        ({ d with id := "" }, none)) ∧
    (cert.revokedAt = 0 →
      resourceCloudflareOriginCACertificateRead originCertificate formatRFC3339 d =
        ({ d with
            certificate := cert.certificate,
            expires_on := formatRFC3339 cert.expiresOn,
            hostnames := cert.hostnames.dedup,
            request_type := cert.requestType }, none)) := by
  refine ⟨fun hrev => ?_, fun hrev => ?_⟩
  · simp [resourceCloudflareOriginCACertificateRead, hok, hrev]
  · simp [resourceCloudflareOriginCACertificateRead, hok, hrev]

/-- C7 at concrete inputs: the revoked certificate clears state, the live
certificate repopulates the four computed attributes. -/
theorem certRead_revoked_vs_repopulate_witness :
    (1234 ≠ 0 →
      resourceCloudflareOriginCACertificateRead lookupRevoked formatSample sampleCertData =
        ({ sampleCertData with id := "" }, none)) ∧
    resourceCloudflareOriginCACertificateRead lookupLive formatSample sampleCertData =
      ({ sampleCertData with
          certificate := liveCert.certificate,
          expires_on := formatSample liveCert.expiresOn,
          hostnames := liveCert.hostnames.dedup,
          request_type := liveCert.requestType }, none) :=
  ⟨fun _ =>
    (certRead_revoked_vs_repopulate lookupRevoked formatSample sampleCertData
        revokedCert (by rfl)).1 (by decide),
   (certRead_revoked_vs_repopulate lookupLive formatSample sampleCertData
        liveCert (by rfl)).2 (by rfl)⟩

/-- **C8.** Every certificate delete revokes the stored certificate id: a
successful revocation clears the state id and returns no error, a failed
revocation returns the wrapped error and leaves the state unchanged. -/
theorem certDelete_revokes
    (revokeOriginCertificate : String → Except String String)
    (d : CertResourceData) :
    (∀ resp, revokeOriginCertificate d.id = .ok resp →
      resourceCloudflareOriginCACertificateDelete revokeOriginCertificate d =
        ({ d with id := "" }, none)) ∧
    (∀ e, revokeOriginCertificate d.id = .error e →
      resourceCloudflareOriginCACertificateDelete revokeOriginCertificate d =
        (d, some ("Error revoking Cloudflare OriginCACertificate: " ++ e))) := by
  refine ⟨fun resp hok => ?_, fun e herr => ?_⟩
  · simp [resourceCloudflareOriginCACertificateDelete, hok]
  · simp [resourceCloudflareOriginCACertificateDelete, herr]

/-- C8 at concrete inputs: a successful revocation clears the id, a failed
one surfaces the wrapped error. -/
theorem certDelete_revokes_witness :
    resourceCloudflareOriginCACertificateDelete revokeOk sampleCertData =
      ({ sampleCertData with id := "" }, none) ∧
    resourceCloudflareOriginCACertificateDelete revokeBroken sampleCertData =
      (sampleCertData,
       some ("Error revoking Cloudflare OriginCACertificate: " ++
             "HTTP status 500: internal error")) :=
  ⟨(certDelete_revokes revokeOk sampleCertData).1 sampleCertData.id (by rfl),
   (certDelete_revokes revokeBroken sampleCertData).2
     "HTTP status 500: internal error" (by rfl)⟩

/-- **C9.** The certificate Read handler never modifies the `csr` or
`requested_validity` attributes, in every branch (not-found, other error,
revoked, success): the only attributes it may change are `id`,
`certificate`, `expires_on`, `hostnames` and `request_type` — the remaining
fields of the state. -/
theorem certRead_frame
    (originCertificate : String → Except String OriginCACertificate)
    (formatRFC3339 : Nat → String) (d : CertResourceData) :
    (resourceCloudflareOriginCACertificateRead originCertificate formatRFC3339 d).1.csr =
      d.csr ∧
    (resourceCloudflareOriginCACertificateRead originCertificate formatRFC3339
        d).1.requested_validity = d.requested_validity := by
  unfold resourceCloudflareOriginCACertificateRead
  cases originCertificate d.id with
  | error e =>
    by_cases hsub : containsSubstring e "Failed to read certificate from Database" = true
    · simp [hsub]
    · simp [hsub]
  | ok cert =>
    by_cases hrev : cert.revokedAt = 0
    · simp [hrev]
    · simp [hrev]

/-- **C10.** `validateCSR` inspects only the first PEM block: its result is
the same for any two inputs (under any decoders) that yield the same first
block, it succeeds whenever the first block's payload parses as a CSR
regardless of the trailing data returned alongside the block, and its
warnings list is empty on every input. -/
theorem validateCSR_first_block_only
    (pemDecode : String → Option (PEMBlock × String))
    (parseCertificateRequest : List Nat → Except String Unit)
    (v k : String) :
    (∀ b rest, pemDecode v = some (b, rest) →
      parseCertificateRequest b.bytes = .ok () →
      validateCSR pemDecode parseCertificateRequest v k = ([], [])) ∧
    (∀ (pemDecode2 : String → Option (PEMBlock × String)) (v2 : String)
        (b : PEMBlock) (rest rest2 : String),
      pemDecode v = some (b, rest) → pemDecode2 v2 = some (b, rest2) →
      validateCSR pemDecode parseCertificateRequest v k =
        validateCSR pemDecode2 parseCertificateRequest v2 k) ∧
    (validateCSR pemDecode parseCertificateRequest v k).1 = [] := by
  refine ⟨fun b rest hsome hok => ?_,
          fun pemDecode2 v2 b rest rest2 h1 h2 => ?_, ?_⟩
  · simp [validateCSR, hsome, hok]
  · simp only [validateCSR, h1, h2]
  · unfold validateCSR
    cases pemDecode v with
    | none => rfl
    | some p =>
      cases hp : parseCertificateRequest p.1.bytes with
      | error e => simp [hp]
      | ok u => simp [hp]

/-- C10 at concrete inputs: the same first block with and without trailing
data validates identically (and successfully), with no warnings. -/
theorem validateCSR_first_block_only_witness :
    validateCSR pemDecodeSample parseCSRSample "goodWithTrailer" "csr" = ([], []) ∧
    validateCSR pemDecodeSample parseCSRSample "good" "csr" =
      validateCSR pemDecodeSample parseCSRSample "goodWithTrailer" "csr" ∧
    (validateCSR pemDecodeSample parseCSRSample "goodWithTrailer" "csr").1 = [] :=
  ⟨(validateCSR_first_block_only pemDecodeSample parseCSRSample "goodWithTrailer" "csr").1
      ⟨"CERTIFICATE REQUEST", [1, 2, 3]⟩ "more" (by rfl) (by rfl),
   (validateCSR_first_block_only pemDecodeSample parseCSRSample "good" "csr").2.1
      pemDecodeSample "goodWithTrailer" ⟨"CERTIFICATE REQUEST", [1, 2, 3]⟩ "" "more"
      (by rfl) (by rfl),
   (validateCSR_first_block_only pemDecodeSample parseCSRSample "goodWithTrailer"
      "csr").2.2⟩

end Cloudflare
